import Mathlib

/-!
Verification of the SnapSQL template-compiler specification against the
repository's sources. The compiler core (expression evaluator, template
resolver, SQL assembler, result shaper) is exercised by the repository's
tests and example applications; where the core itself is absent from the
sources, the definitions below are modelled from the specification text
and say so in their doc comments. The FastAPI example-application helpers
(`build_post_with_author`, `build_comment_with_author`, `create_user`) are
embedded directly from their Python sources.
-/

namespace SnapSQL

/-- Modelled from the spec: runtime values of the embedded expression
language and of call-time arguments — int, string, bool literals plus
list values for `For` collections and `in` membership (spec section 4.2,
data model section 3; the evaluator source is not in the repository). -/
inductive Value where
  | int (n : Int)
  | str (s : String)
  | bool (b : Bool)
  | list (vs : List Value)
deriving Repr

/-- Structurally recursive decidable equality for `Value` (the nested
`list` constructor prevents automatic derivation). -/
def Value.deq : (a b : Value) → Decidable (a = b)
  | .int a, .int b =>
    if h : a = b then .isTrue (by rw [h]) else .isFalse (by intro hc; cases hc; exact h rfl)
  | .str a, .str b =>
    if h : a = b then .isTrue (by rw [h]) else .isFalse (by intro hc; cases hc; exact h rfl)
  | .bool a, .bool b =>
    if h : a = b then .isTrue (by rw [h]) else .isFalse (by intro hc; cases hc; exact h rfl)
  | .list [], .list [] => .isTrue rfl
  | .list (a :: as), .list (b :: bs) =>
    match Value.deq a b, Value.deq (.list as) (.list bs) with
    | .isTrue h1, .isTrue h2 =>
      .isTrue (by cases h1; injection h2 with h3; rw [h3])
    | .isFalse h1, _ =>
      .isFalse (by intro hc; injection hc with h; injection h with ha _; exact h1 ha)
    | _, .isFalse h2 =>
      .isFalse (by
        intro hc; injection hc with h; injection h with _ has
        exact h2 (by rw [has]))
  | .int _, .str _ => .isFalse nofun
  | .int _, .bool _ => .isFalse nofun
  | .int _, .list _ => .isFalse nofun
  | .str _, .int _ => .isFalse nofun
  | .str _, .bool _ => .isFalse nofun
  | .str _, .list _ => .isFalse nofun
  | .bool _, .int _ => .isFalse nofun
  | .bool _, .str _ => .isFalse nofun
  | .bool _, .list _ => .isFalse nofun
  | .list _, .int _ => .isFalse nofun
  | .list _, .str _ => .isFalse nofun
  | .list _, .bool _ => .isFalse nofun
  | .list [], .list (_ :: _) => .isFalse nofun
  | .list (_ :: _), .list [] => .isFalse nofun

instance : DecidableEq Value := Value.deq

/-- Modelled from the spec: the embedded expression language — identifiers,
literals, comparisons, boolean connectives and membership (spec 4.2; the
expression compiler source is not in the repository). -/
inductive Expr where
  | lit (v : Value)
  | ident (x : String)
  | eq (a b : Expr)
  | ne (a b : Expr)
  | lt (a b : Expr)
  | le (a b : Expr)
  | gt (a b : Expr)
  | ge (a b : Expr)
  | and (a b : Expr)
  | or (a b : Expr)
  | not (a : Expr)
  | mem (a b : Expr)
deriving Repr

/-- Modelled from the spec: evaluation errors — unbound identifier or
operand type mismatch (spec 4.2). -/
inductive EvalError where
  | unboundIdent (x : String)
  | typeMismatch
deriving Repr, DecidableEq

/-- Modelled from the spec: an Environment maps identifiers to typed
values (data model section 3); innermost binding wins, which an
association list consulted front-to-back realises. -/
def Env : Type := List (String × Value)

/-- Front-to-back association lookup: the innermost (front) binding wins. -/
def lookupEnv : Env → String → Option Value
  | [], _ => none
  | (k, v) :: rest, x => if k = x then some v else lookupEnv rest x

/-- Scalar equality used by `==`/`!=`/`in`: defined on operands of the same
scalar type, `none` on any type mismatch (spec 4.2). -/
def valueEq : Value → Value → Option Bool
  | .int a, .int b => some (a = b)
  | .str a, .str b => some (a = b)
  | .bool a, .bool b => some (a = b)
  | _, _ => none

/-- Ordering comparison used by `<`/`<=`/`>`/`>=`: defined on two ints or
two strings, `none` on any type mismatch (spec 4.2). -/
def valueLt : Value → Value → Option Bool
  | .int a, .int b => some (a < b)
  | .str a, .str b => some (a < b)
  | _, _ => none

/-- Membership scan for `in`: compares the needle against each list element
left to right with `valueEq`; an incomparable element is a type mismatch. -/
def memScan (x : Value) : List Value → Except EvalError Bool
  | [] => .ok false
  | v :: vs =>
    match valueEq x v with
    | some true => .ok true
    | some false => memScan x vs
    | none => .error .typeMismatch

/-- Modelled from the spec: `evaluate(CompiledExpr, Environment) -> Value |
EvalError` (spec 4.2). Unbound identifiers and operand type mismatches
yield an error, never a default; `&&`/`||` short-circuit, evaluating the
right operand only when the left does not determine the result. -/
def evalExpr : Expr → Env → Except EvalError Value
  | .lit v, _ => .ok v
  | .ident x, env =>
    match lookupEnv env x with
    | some v => .ok v
    | none => .error (.unboundIdent x)
  | .eq a b, env => do
    let va ← evalExpr a env
    let vb ← evalExpr b env
    match valueEq va vb with
    | some r => .ok (.bool r)
    | none => .error .typeMismatch
  | .ne a b, env => do
    let va ← evalExpr a env
    let vb ← evalExpr b env
    match valueEq va vb with
    | some r => .ok (.bool (!r))
    | none => .error .typeMismatch
  | .lt a b, env => do
    let va ← evalExpr a env
    let vb ← evalExpr b env
    match valueLt va vb with
    | some r => .ok (.bool r)
    | none => .error .typeMismatch
  | .le a b, env => do
    let va ← evalExpr a env
    let vb ← evalExpr b env
    match valueLt vb va with
    | some r => .ok (.bool (!r))
    | none => .error .typeMismatch
  | .gt a b, env => do
    let va ← evalExpr a env
    let vb ← evalExpr b env
    match valueLt vb va with
    | some r => .ok (.bool r)
    | none => .error .typeMismatch
  | .ge a b, env => do
    let va ← evalExpr a env
    let vb ← evalExpr b env
    match valueLt va vb with
    | some r => .ok (.bool (!r))
    | none => .error .typeMismatch
  | .and a b, env => do
    let va ← evalExpr a env
    match va with
    | .bool false => .ok (.bool false)
    | .bool true =>
      let vb ← evalExpr b env
      match vb with
      | .bool c => .ok (.bool c)
      | _ => .error .typeMismatch
    | _ => .error .typeMismatch
  | .or a b, env => do
    let va ← evalExpr a env
    match va with
    | .bool true => .ok (.bool true)
    | .bool false =>
      let vb ← evalExpr b env
      match vb with
      | .bool c => .ok (.bool c)
      | _ => .error .typeMismatch
    | _ => .error .typeMismatch
  | .not a, env => do
    let va ← evalExpr a env
    match va with
    | .bool c => .ok (.bool (!c))
    | _ => .error .typeMismatch
  | .mem a b, env => do
    let va ← evalExpr a env
    let vb ← evalExpr b env
    match vb with
    | .list vs => (memScan va vs).map Value.bool
    | _ => .error .typeMismatch

/-- Modelled from the spec: the directive-tree IR — `Literal(text)`,
`Placeholder(parameterPath)`, `If(condition, thenBranch, elseBranch)`,
`For(loopVar, collectionPath, body)` (data model section 3). A template's
ordered sequence of top-level nodes is encoded with `seq`/`empty`; the
parser source is not in the repository. -/
inductive DirectiveNode where
  | literal (text : String)
  | placeholder (path : String)
  | empty
  | seq (a b : DirectiveNode)
  | dIf (cond : Expr) (thenBranch elseBranch : DirectiveNode)
  | dFor (loopVar : String) (collectionPath : String) (body : DirectiveNode)
deriving Repr

/-- Modelled from the spec: a ResolvedFragment is either a literal SQL
string or a bound-parameter reference carrying its runtime value
(data model section 3). -/
inductive ResolvedFragment where
  | literal (text : String)
  | bound (value : Value)
deriving Repr

/-- Modelled from the spec: call-time failures — a missing required
parameter, or an expression evaluation error surfaced at the call
boundary (spec 4.3, section 7). -/
inductive ValidationError where
  | missingParam (name : String)
  | evalFailed (e : EvalError)
deriving Repr

/-- Sequential composition of fragment-producing computations: resolve the
first, then the rest, concatenating fragment sequences in order. -/
def fragAppend (a b : Except ValidationError (List ResolvedFragment)) :
    Except ValidationError (List ResolvedFragment) := do
  let fa ← a
  let fb ← b
  .ok (fa ++ fb)

/-- Iterate a body-resolver over the elements of a `For` collection in list
order, concatenating the fragment sequences. -/
def resolveIter (f : Value → Except ValidationError (List ResolvedFragment)) :
    List Value → Except ValidationError (List ResolvedFragment)
  | [] => .ok []
  | v :: vs => fragAppend (f v) (resolveIter f vs)

/-- Modelled from the spec: `resolve(Template, Environment) -> sequence of
ResolvedFragment | ValidationError` (spec 4.3). Literal emits its text;
Placeholder emits the Environment's value at its path or a
ValidationError naming the parameter; If evaluates its condition and
resolves exactly the selected branch; For binds the loop variable in a
child environment per element, an empty collection yielding zero
fragments. The resolver source is not in the repository. -/
def resolveNode : DirectiveNode → Env → Except ValidationError (List ResolvedFragment)
  | .literal t, _ => .ok [.literal t]
  | .placeholder p, env =>
    match lookupEnv env p with
    | some v => .ok [.bound v]
    | none => .error (.missingParam p)
  | .empty, _ => .ok []
  | .seq a b, env => fragAppend (resolveNode a env) (resolveNode b env)
  | .dIf c t e, env =>
    match evalExpr c env with
    | .ok (.bool true) => resolveNode t env
    | .ok (.bool false) => resolveNode e env
    | .ok _ => .error (.evalFailed .typeMismatch)
    | .error err => .error (.evalFailed err)
  | .dFor v coll body, env =>
    match lookupEnv env coll with
    | some (.list items) => resolveIter (fun item => resolveNode body ((v, item) :: env)) items
    | some _ => .error (.evalFailed .typeMismatch)
    | none => .error (.missingParam coll)

/-- Modelled from the spec: `assemble(sequence of ResolvedFragment) ->
(sqlText, orderedBindValues)` (spec 4.4). Literal fragments are
concatenated verbatim; each parameter-reference fragment appends the
positional placeholder token `?` to the text and its carried value to the
ordered bind list, in emission order. The assembler source is not in the
repository. -/
def assemble : List ResolvedFragment → String × List Value
  | [] => ("", [])
  | .literal t :: rest =>
    let (s, bs) := assemble rest
    (t ++ s, bs)
  | .bound v :: rest =>
    let (s, bs) := assemble rest
    ("?" ++ s, v :: bs)

/-- The full per-call pipeline: resolution followed by assembly
(spec data flow, section 2). -/
def runTemplate (tpl : DirectiveNode) (env : Env) :
    Except ValidationError (String × List Value) :=
  (resolveNode tpl env).map assemble

/-- Number of positional placeholder tokens `?` occurring in assembled SQL
text. -/
def placeholderCount (s : String) : Nat :=
  s.toList.count '?'

/-- A template is placeholder-clean when none of its literal SQL runs
contains the placeholder token character `?`. -/
def cleanNode : DirectiveNode → Prop
  | .literal t => t.toList.count '?' = 0
  | .placeholder _ => True
  | .empty => True
  | .seq a b => cleanNode a ∧ cleanNode b
  | .dIf _ t e => cleanNode t ∧ cleanNode e
  | .dFor _ _ body => cleanNode body

def cleanNodeDec : (n : DirectiveNode) → Decidable (cleanNode n)
  | .literal t => inferInstanceAs (Decidable (t.toList.count '?' = 0))
  | .placeholder _ => .isTrue trivial
  | .empty => .isTrue trivial
  | .seq a b => @instDecidableAnd _ _ (cleanNodeDec a) (cleanNodeDec b)
  | .dIf _ t e => @instDecidableAnd _ _ (cleanNodeDec t) (cleanNodeDec e)
  | .dFor _ _ body => cleanNodeDec body

instance : DecidablePred cleanNode := cleanNodeDec

/-- A fragment sequence is placeholder-clean when none of its literal
fragments contains the placeholder token character `?`. -/
def cleanFrags (fs : List ResolvedFragment) : Prop :=
  ∀ s, ResolvedFragment.literal s ∈ fs → s.toList.count '?' = 0

/-- A raw row as returned by the executor: a mapping from column name to
value (spec section 6). -/
def Row : Type := List (String × Value)

/-- Front-to-back column lookup in a raw row. -/
def lookupRow : Row → String → Option Value
  | [], _ => none
  | (k, v) :: rest, c => if k = c then some v else lookupRow rest c

/-- A typed record: field name to (possibly absent) value. -/
def Record : Type := List (String × Option Value)

/-- Modelled from the spec: a ResultSpec's column-to-field mapping and the
query name used in `NotFoundError` messages (data model section 3; the
shaper source is not in the repository). Nested relation specs are
treated separately by `hydrate`. -/
structure ResultSpec where
  queryName : String
  fields : List (String × String)
deriving Repr

/-- Build a typed record from one raw row by the spec's column-to-field
mapping. -/
def buildRecord (spec : ResultSpec) (row : Row) : Record :=
  spec.fields.map fun fc => (fc.1, lookupRow row fc.2)

/-- Modelled from the spec: the `NotFoundError` raised by One-cardinality
shaping over zero rows, naming the query (spec 4.5, section 7). -/
inductive NotFoundError where
  | notFound (queryName : String)
deriving Repr, DecidableEq

/-- Modelled from the spec: One-cardinality shaping — zero rows raises
`NotFoundError` naming the query; otherwise the first row becomes the
typed record and any further rows are ignored (spec 4.5). The shaper
source is not in the repository. -/
def shapeOne (spec : ResultSpec) : List Row → Except NotFoundError Record
  | [] => .error (.notFound spec.queryName)
  | r :: _ => .ok (buildRecord spec r)

/-- Modelled from the spec: Many-cardinality shaping — one typed record
per raw row, emitted in exactly the order the rows were returned, with no
re-sorting (spec 4.5). The shaper source is not in the repository. -/
def shapeMany (spec : ResultSpec) : List Row → List Record
  | [] => []
  | r :: rest => buildRecord spec r :: shapeMany spec rest

/-- Modelled from the spec: Affected-cardinality shaping — the
executor-reported affected-row count is returned as an integer; the
shaper receives no rows to materialise (spec 4.5). -/
def shapeAffected (reportedCount : Nat) : Int :=
  Int.ofNat reportedCount

/-- A hydrated parent record: the parent fields plus the accumulated
list-valued relation field (spec 4.5, relation hydration). -/
structure HydratedParent where
  parent : Record
  relation : List Record

/-- Modelled from the spec: nested relation hydration — contiguous raw
rows sharing the parent identifier column's value merge into one parent
record built from the run's first row, whose relation field accumulates
one sub-record per raw row in row order; the shaper does not re-sort,
only groups adjacent matches (spec 4.5). `keyCol` is the parent
identifier column, `pspec` the parent mapping and `sspec` the sub-record
mapping. The shaper source is not in the repository. -/
def hydrate (keyCol : String) (pspec sspec : ResultSpec) : List Row → List HydratedParent
  | [] => []
  | r :: rest =>
    let run := rest.takeWhile fun r2 => decide (lookupRow r2 keyCol = lookupRow r keyCol)
    let rest2 := rest.dropWhile fun r2 => decide (lookupRow r2 keyCol = lookupRow r keyCol)
    ⟨buildRecord pspec r, (r :: run).map (buildRecord sspec)⟩ :: hydrate keyCol pspec sspec rest2
termination_by rows => rows.length
decreasing_by
  simp only [List.length_cons]
  exact Nat.lt_succ_of_le (List.dropWhile_suffix _).sublist.length_le

/-- One row of the `accounts` table backing the appsample tests
(`testdata/appsample`): id, name, status. -/
structure Account where
  id : Int
  name : String
  status : String
deriving Repr, DecidableEq

/-- Modelled from the spec: the executor executing the conditional-update
statement against an in-memory accounts store — sets `status` on the rows
selected by the optional id filter and reports the number of rows the
UPDATE matched (spec section 6; the executor is an external collaborator
and the generated `UpdateAccountStatusConditional` source is not in the
repository). -/
def execUpdateAccounts (store : List Account) (newStatus : String)
    (idFilter : Option Int) : List Account × Nat :=
  match idFilter with
  | some i =>
    ((store.map fun a => if a.id = i then { a with status := newStatus } else a),
      (store.filter fun a => a.id == i).length)
  | none => ((store.map fun a => { a with status := newStatus }), store.length)

/-- Modelled from the spec: the generated `UpdateAccountStatusConditional`
call surface — Affected cardinality, `applyFilter=true` restricting the
UPDATE to the given id (spec 4.5 and testable-properties scenario; the
generated source is not in the repository). Returns the updated store and
the affected-row count as shaped by `shapeAffected`. -/
def UpdateAccountStatusConditional (store : List Account) (status : String)
    (id : Int) (applyFilter : Bool) : List Account × Int :=
  let (store2, n) := execUpdateAccounts store status (if applyFilter then some id else none)
  (store2, shapeAffected n)

/-- The optional-predicate template of the spec's scenario (testable
properties, section 8): literal SQL, one placeholder, and an `If` whose
unchosen else-branch appends an extra predicate. -/
def demoTemplate : DirectiveNode :=
  .seq (.literal "SELECT * FROM accounts WHERE id = ")
    (.seq (.placeholder "id")
      (.dIf (.ident "includeInactive") .empty (.literal " AND status != inactive")))

/-- Arguments `id=1, includeInactive=false` for the scenario template. -/
def demoEnv : Env := [("id", Value.int 1), ("includeInactive", Value.bool false)]

/-- Parent mapping of the joined-query fixture: one post record per
parent-key run. -/
def postSpec : ResultSpec := ⟨"PostGet", [("post_id", "post_id"), ("title", "title")]⟩

/-- Sub-record mapping of the joined-query fixture: one comment per raw
row. -/
def commentSubSpec : ResultSpec := ⟨"PostGet.comments", [("comment_id", "comment_id")]⟩

/-- First raw row of the joined-query fixture: parent key 10, comment 1. -/
def rawRow1 : Row :=
  [("post_id", Value.int 10), ("title", Value.str "Stub Post"), ("comment_id", Value.int 1)]

/-- Second raw row of the joined-query fixture: parent key 10, comment 2. -/
def rawRow2 : Row :=
  [("post_id", Value.int 10), ("title", Value.str "Stub Post"), ("comment_id", Value.int 2)]

/-- The two-account backing store of the conditional-update scenario
(`test_update_account_status_conditional_updates_conditionally`). -/
def demoStore : List Account := [⟨1, "Alpha", "active"⟩, ⟨2, "Beta", "active"⟩]

end SnapSQL

namespace BlogApi

/-- One hydrated author entry as a dict: `get` with a default models a
possibly absent key (`examples/blog-api/app/routers/posts.py`,
`comments.py`). -/
structure AuthorEntry where
  username : Option String
  full_name : Option String
deriving Repr, DecidableEq

/-- First element of the hydrated author list, or the empty dict `\x7b\x7d`
(every `get` then returns its default), mirroring
`author = author_entries[0] if author_entries else {}`. -/
def firstAuthor : List AuthorEntry → AuthorEntry
  | [] => ⟨none, none⟩
  | a :: _ => a

/-- The payload dict passed to `build_post_with_author`: the non-author
fields are carried opaquely in `core`; `author` is `none` when the
`author` key is absent or maps to `None` (`payload.pop("author", []) or
[]` turns both into the empty list). -/
structure PostPayload where
  core : List (String × SnapSQL.Value)
  author : Option (List AuthorEntry)
deriving Repr

/-- The `PostWithAuthor` record produced by `build_post_with_author`:
pass-through fields plus the two flattened author fields
(`examples/blog-api/app/models.py`). -/
structure PostWithAuthor where
  core : List (String × SnapSQL.Value)
  author_username : String
  author_full_name : Option String
deriving Repr

/-- Embedded from `examples/blog-api/app/routers/posts.py`
(`build_post_with_author`): pops the hydrated `author` list (absent or
`None` becomes `[]`), takes its first entry or the empty dict, and fills
`author_username` with `get("username", "")` and `author_full_name` with
`get("full_name")`. -/
def build_post_with_author (payload : PostPayload) : PostWithAuthor :=
  let author_entries := payload.author.getD []
  let author := firstAuthor author_entries
  ⟨payload.core, author.username.getD "", author.full_name⟩

/-- The payload dict passed to `build_comment_with_author`; same shape as
`PostPayload` (`examples/blog-api/app/routers/comments.py`). -/
structure CommentPayload where
  core : List (String × SnapSQL.Value)
  author : Option (List AuthorEntry)
deriving Repr

/-- The `CommentWithAuthor` record produced by `build_comment_with_author`
(`examples/blog-api/app/models.py`). -/
structure CommentWithAuthor where
  core : List (String × SnapSQL.Value)
  author_username : String
  author_full_name : Option String
deriving Repr

/-- Embedded from `examples/blog-api/app/routers/comments.py`
(`build_comment_with_author`): identical author-flattening logic to
`build_post_with_author`. -/
def build_comment_with_author (payload : CommentPayload) : CommentWithAuthor :=
  let author_entries := payload.author.getD []
  let author := firstAuthor author_entries
  ⟨payload.core, author.username.getD "", author.full_name⟩

/-- The exceptions that can escape the `try` body of `create_user`
(`examples/blog-api/app/routers/users.py`): `asyncpg.UniqueViolationError`,
a `fastapi.HTTPException` (which subclasses `Exception`), or any other
`Exception` carrying its message. -/
inductive Exn where
  | uniqueViolation
  | httpException (status : Nat) (detail : String)
  | otherException (msg : String)
deriving Repr, DecidableEq

/-- Python's `str(e)` on the exceptions above: an `HTTPException` renders
as `status: detail` (starlette), other exceptions as their message. -/
def exnStr : Exn → String
  | .uniqueViolation => "UniqueViolationError"
  | .httpException s d => toString s ++ ": " ++ d
  | .otherException m => m

/-- A row returned by `conn.fetchrow` for the INSERT ... RETURNING in
`create_user`; its columns are opaque here. -/
structure UserRow where
  columns : List (String × SnapSQL.Value)
deriving Repr, DecidableEq

/-- Outcome of the awaited `conn.fetchrow` call inside `create_user`'s
`try` body: a row, `None`, or a raised exception. -/
inductive FetchOutcome where
  | row (r : UserRow)
  | noRow
  | raised (e : Exn)
deriving Repr, DecidableEq

/-- The `UserResponse` constructed from the returned row
(`UserResponse(**dict(row))`). -/
structure UserResponse where
  columns : List (String × SnapSQL.Value)
deriving Repr, DecidableEq

/-- What the `create_user` handler produces: a 201 response body or an
`HTTPException` with a status code and detail string. -/
inductive HandlerOutcome where
  | response (r : UserResponse)
  | httpError (status : Nat) (detail : String)
deriving Repr, DecidableEq

/-- The `try` body of `create_user`
(`examples/blog-api/app/routers/users.py` lines 29-47): awaits
`fetchrow`; if the row is `None` raises `HTTPException(500, "Failed to
insert user")`; otherwise returns `UserResponse(**dict(row))`. -/
def createUserTryBody (o : FetchOutcome) : Except Exn UserResponse :=
  match o with
  | .row r => .ok ⟨r.columns⟩
  | .noRow => .error (.httpException 500 "Failed to insert user")
  | .raised e => .error e

/-- Embedded from `examples/blog-api/app/routers/users.py`
(`create_user`): runs the `try` body, then applies the `except` clauses
in order — `asyncpg.UniqueViolationError` maps to HTTP 409, and the
trailing `except Exception` maps every other exception (including the
`HTTPException(500)` raised for a `None` row, since `HTTPException`
subclasses `Exception` and no bare `except HTTPException: raise` clause
exists in this handler) to HTTP 400 with `str(e)` as detail. -/
def create_user (o : FetchOutcome) : HandlerOutcome :=
  match createUserTryBody o with
  | .ok r => .response r
  | .error .uniqueViolation => .httpError 409 "Username or email already exists"
  | .error e => .httpError 400 (exnStr e)

end BlogApi

open SnapSQL BlogApi in
/-- C2: For every One-cardinality query, shaping zero raw rows raises
`NotFoundError` naming the query, and shaping one or more raw rows
returns the typed record built from the first row; additional rows are
accepted and ignored (the result does not depend on them). -/
theorem shapeOne_zero_rows_not_found_first_row_otherwise
    (spec : SnapSQL.ResultSpec) :
    SnapSQL.shapeOne spec [] = .error (.notFound spec.queryName) ∧
    ∀ (r : SnapSQL.Row) (rest : List SnapSQL.Row),
      SnapSQL.shapeOne spec (r :: rest) = .ok (SnapSQL.buildRecord spec r) :=
  ⟨rfl, fun _ _ => rfl⟩

/-- C6: Many-cardinality shaping emits one typed record per raw row, in
exactly the order the raw rows were returned by the executor — the output
is the ordered map of record-building over the input, with no
re-sorting. -/
theorem shapeMany_preserves_row_order (spec : SnapSQL.ResultSpec)
    (rows : List SnapSQL.Row) :
    SnapSQL.shapeMany spec rows = rows.map (SnapSQL.buildRecord spec) := by
  induction rows with
  | nil => rfl
  | cons r rest ih => simp [SnapSQL.shapeMany, ih]

/-- C7: the conditional update bound to `(status="inactive", id=1,
applyFilter=true)` against the two-account store containing exactly one
row with id 1 reports affected-count 1; the same call with `id=999`
reports 0. -/
theorem updateAccountStatusConditional_scenario :
    (SnapSQL.UpdateAccountStatusConditional SnapSQL.demoStore "inactive" 1 true).2 = 1 ∧
    (SnapSQL.UpdateAccountStatusConditional SnapSQL.demoStore "inactive" 999 true).2 = 0 := by
  constructor <;> rfl

/-- C9: `build_post_with_author` and `build_comment_with_author` always
return a record: with an absent/`None`/empty hydrated author list the
author fields default to `""` and `None`; with a non-empty list only the
first entry supplies the author fields and further entries are
discarded. -/
theorem build_with_author_first_entry_or_default :
    (∀ p : BlogApi.PostPayload, p.author = none ∨ p.author = some [] →
      BlogApi.build_post_with_author p = ⟨p.core, "", none⟩) ∧
    (∀ (p : BlogApi.PostPayload) (a : BlogApi.AuthorEntry)
        (rest : List BlogApi.AuthorEntry), p.author = some (a :: rest) →
      BlogApi.build_post_with_author p = ⟨p.core, a.username.getD "", a.full_name⟩) ∧
    (∀ c : BlogApi.CommentPayload, c.author = none ∨ c.author = some [] →
      BlogApi.build_comment_with_author c = ⟨c.core, "", none⟩) ∧
    (∀ (c : BlogApi.CommentPayload) (a : BlogApi.AuthorEntry)
        (rest : List BlogApi.AuthorEntry), c.author = some (a :: rest) →
      BlogApi.build_comment_with_author c = ⟨c.core, a.username.getD "", a.full_name⟩) := by
  refine ⟨fun p hp => ?_, fun p a rest hp => ?_, fun c hc => ?_, fun c a rest hc => ?_⟩
  · rcases hp with h | h <;>
      simp [BlogApi.build_post_with_author, h, BlogApi.firstAuthor]
  · simp [BlogApi.build_post_with_author, hp, BlogApi.firstAuthor]
  · rcases hc with h | h <;>
      simp [BlogApi.build_comment_with_author, h, BlogApi.firstAuthor]
  · simp [BlogApi.build_comment_with_author, hc, BlogApi.firstAuthor]

/-- Witness for C9 at concrete payloads: a `None` author list still yields
a record with defaulted author fields, and a two-entry list uses only its
first entry. -/
theorem build_with_author_first_entry_or_default_witness :
    BlogApi.build_post_with_author ⟨[], none⟩ = ⟨[], "", none⟩ ∧
    BlogApi.build_comment_with_author
        ⟨[], some [⟨some "alice", some "Alice A"⟩, ⟨some "bob", none⟩]⟩ =
      ⟨[], "alice", some "Alice A"⟩ :=
  ⟨build_with_author_first_entry_or_default.1 ⟨[], none⟩ (Or.inl rfl),
   build_with_author_first_entry_or_default.2.2.2
     ⟨[], some [⟨some "alice", some "Alice A"⟩, ⟨some "bob", none⟩]⟩
     ⟨some "alice", some "Alice A"⟩ [⟨some "bob", none⟩] rfl⟩

/-- C10: in `create_user`, every failure outcome other than a
unique-constraint violation yields HTTP 400; in particular the `None`-row
case, whose internally raised `HTTPException(500)` is caught by the
trailing generic `except Exception` clause and re-raised as 400, so the
handler's try block never emits a 500. -/
theorem create_user_non_unique_failures_are_400 :
    (∀ (o : BlogApi.FetchOutcome) (s : Nat) (d : String),
      BlogApi.create_user o = .httpError s d →
      o ≠ .raised .uniqueViolation → s = 400) ∧
    BlogApi.create_user .noRow =
      .httpError 400 (BlogApi.exnStr (.httpException 500 "Failed to insert user")) ∧
    (∀ (o : BlogApi.FetchOutcome) (d : String),
      BlogApi.create_user o ≠ .httpError 500 d) := by
  refine ⟨fun o s d h hne => ?_, rfl, fun o d => ?_⟩
  · cases o with
    | row r => simp [BlogApi.create_user, BlogApi.createUserTryBody] at h
    | noRow =>
      simp [BlogApi.create_user, BlogApi.createUserTryBody] at h
      exact h.1.symm
    | raised e =>
      cases e with
      | uniqueViolation => exact absurd rfl hne
      | httpException st det =>
        simp [BlogApi.create_user, BlogApi.createUserTryBody] at h
        exact h.1.symm
      | otherException m =>
        simp [BlogApi.create_user, BlogApi.createUserTryBody] at h
        exact h.1.symm
  · cases o with
    | row r => simp [BlogApi.create_user, BlogApi.createUserTryBody]
    | noRow => simp [BlogApi.create_user, BlogApi.createUserTryBody]
    | raised e =>
      cases e <;> simp [BlogApi.create_user, BlogApi.createUserTryBody]

/-- Witness for C10 at a concrete failing outcome: a generic driver
exception surfaces as HTTP 400. -/
theorem create_user_non_unique_failures_are_400_witness :
    BlogApi.create_user (.raised (.otherException "boom")) = .httpError 400 "boom" ∧
    400 = 400 :=
  ⟨rfl, create_user_non_unique_failures_are_400.1
    (.raised (.otherException "boom")) 400 "boom" rfl (by decide)⟩

/-- C4: resolution followed by assembly is a deterministic pure function
of the compiled template IR and the arguments: two calls with equal
argument environments produce identical assembled SQL text and equal
ordered bind-value lists. -/
theorem runTemplate_deterministic (tpl : SnapSQL.DirectiveNode)
    (env1 env2 : SnapSQL.Env) (h : env1 = env2) :
    SnapSQL.runTemplate tpl env1 = SnapSQL.runTemplate tpl env2 := by
  rw [h]

/-- Witness for C4: two calls of the scenario template with the same
arguments agree. -/
theorem runTemplate_deterministic_witness :
    SnapSQL.runTemplate SnapSQL.demoTemplate SnapSQL.demoEnv =
      SnapSQL.runTemplate SnapSQL.demoTemplate SnapSQL.demoEnv :=
  runTemplate_deterministic SnapSQL.demoTemplate SnapSQL.demoEnv SnapSQL.demoEnv rfl

/-- C3: for every `If` node exactly one branch is resolved per call — a
true condition makes the node resolve exactly as its then-branch and a
false condition exactly as its else-branch, so the unchosen branch
contributes no fragments, none of its placeholders are evaluated, and a
false condition never raises `ValidationError` for a parameter referenced
only in the unchosen branch. -/
theorem dIf_exactly_one_branch (c : SnapSQL.Expr)
    (t e : SnapSQL.DirectiveNode) (env : SnapSQL.Env) :
    (SnapSQL.evalExpr c env = .ok (.bool true) →
      SnapSQL.resolveNode (.dIf c t e) env = SnapSQL.resolveNode t env) ∧
    (SnapSQL.evalExpr c env = .ok (.bool false) →
      SnapSQL.resolveNode (.dIf c t e) env = SnapSQL.resolveNode e env) ∧
    (SnapSQL.evalExpr c env = .ok (.bool false) →
      ∀ fs, SnapSQL.resolveNode e env = .ok fs →
        SnapSQL.resolveNode (.dIf c t e) env = .ok fs) := by
  refine ⟨fun h => ?_, fun h => ?_, fun h fs hfs => ?_⟩
  · simp [SnapSQL.resolveNode, h]
  · simp [SnapSQL.resolveNode, h]
  · simp [SnapSQL.resolveNode, h, hfs]

/-- Witness for C3: with `includeInactive=false`, an `If` whose
then-branch references the unsupplied parameter `missing` resolves to
exactly the else-branch's fragments, raising no `ValidationError`. -/
theorem dIf_exactly_one_branch_witness :
    SnapSQL.resolveNode
        (.dIf (.ident "includeInactive") (.placeholder "missing")
          (.literal " AND status != inactive"))
        [("includeInactive", SnapSQL.Value.bool false)] =
      .ok [.literal " AND status != inactive"] :=
  (dIf_exactly_one_branch (.ident "includeInactive") (.placeholder "missing")
    (.literal " AND status != inactive")
    [("includeInactive", SnapSQL.Value.bool false)]).2.2 rfl
    [.literal " AND status != inactive"] rfl

/-- C5: evaluating an unbound identifier yields `EvalError` naming it;
evaluating a comparison whose operand types mismatch yields `EvalError`;
and the Resolver surfaces any such evaluation error of an `If` condition
as a `ValidationError` at the call boundary — never treating it as the
condition being false. -/
theorem evalExpr_errors_surface_as_validation :
    (∀ (x : String) (env : SnapSQL.Env), SnapSQL.lookupEnv env x = none →
      SnapSQL.evalExpr (.ident x) env = .error (.unboundIdent x)) ∧
    (∀ (env : SnapSQL.Env) (a b : SnapSQL.Expr) (va vb : SnapSQL.Value),
      SnapSQL.evalExpr a env = .ok va → SnapSQL.evalExpr b env = .ok vb →
      SnapSQL.valueEq va vb = none →
      SnapSQL.evalExpr (.eq a b) env = .error .typeMismatch) ∧
    (∀ (c : SnapSQL.Expr) (t e : SnapSQL.DirectiveNode) (env : SnapSQL.Env)
        (err : SnapSQL.EvalError), SnapSQL.evalExpr c env = .error err →
      SnapSQL.resolveNode (.dIf c t e) env = .error (.evalFailed err)) := by
  refine ⟨fun x env h => ?_, fun env a b va vb ha hb hmm => ?_,
    fun c t e env err h => ?_⟩
  · simp [SnapSQL.evalExpr, h]
  · simp [SnapSQL.evalExpr, ha, hb, hmm, Except.bind, bind]
  · simp [SnapSQL.resolveNode, h]

/-- Witness for C5: an unbound identifier errors, a string-to-bool
comparison errors, and an `If` over the failing condition surfaces a
`ValidationError`. -/
theorem evalExpr_errors_surface_as_validation_witness :
    SnapSQL.evalExpr (.ident "ghost") [] = .error (.unboundIdent "ghost") ∧
    SnapSQL.evalExpr (.eq (.lit (.str "a")) (.lit (.bool true))) [] =
      .error .typeMismatch ∧
    SnapSQL.resolveNode (.dIf (.ident "ghost") .empty .empty) [] =
      .error (.evalFailed (.unboundIdent "ghost")) :=
  ⟨evalExpr_errors_surface_as_validation.1 "ghost" [] rfl,
   evalExpr_errors_surface_as_validation.2.1 [] (.lit (.str "a"))
     (.lit (.bool true)) (.str "a") (.bool true) rfl rfl rfl,
   evalExpr_errors_surface_as_validation.2.2 (.ident "ghost") .empty .empty []
     (.unboundIdent "ghost") rfl⟩

/-- Inversion for sequential fragment composition: a successful
`fragAppend` comes from two successful parts whose fragments are
concatenated. -/
theorem fragAppend_ok_inv {x y : Except SnapSQL.ValidationError (List SnapSQL.ResolvedFragment)}
    {fs : List SnapSQL.ResolvedFragment} (h : SnapSQL.fragAppend x y = .ok fs) :
    ∃ fa fb, x = .ok fa ∧ y = .ok fb ∧ fs = fa ++ fb := by
  cases x with
  | error e => simp [SnapSQL.fragAppend, Except.bind, bind] at h
  | ok fa =>
    cases y with
    | error e => simp [SnapSQL.fragAppend, Except.bind, bind] at h
    | ok fb =>
      simp [SnapSQL.fragAppend, Except.bind, bind] at h
      exact ⟨fa, fb, rfl, rfl, h.symm⟩

/-- Placeholder-cleanliness is preserved by fragment concatenation. -/
theorem cleanFrags_append {fa fb : List SnapSQL.ResolvedFragment}
    (ha : SnapSQL.cleanFrags fa) (hb : SnapSQL.cleanFrags fb) :
    SnapSQL.cleanFrags (fa ++ fb) := by
  intro s hs
  rcases List.mem_append.mp hs with h | h
  · exact ha s h
  · exact hb s h

/-- If every body resolution of a `For` iteration yields clean fragments,
so does the whole iteration. -/
theorem resolveIter_clean
    (f : SnapSQL.Value → Except SnapSQL.ValidationError (List SnapSQL.ResolvedFragment))
    (hf : ∀ item fs, f item = .ok fs → SnapSQL.cleanFrags fs) :
    ∀ (items : List SnapSQL.Value) (fs : List SnapSQL.ResolvedFragment),
      SnapSQL.resolveIter f items = .ok fs → SnapSQL.cleanFrags fs := by
  intro items
  induction items with
  | nil =>
    intro fs h
    simp [SnapSQL.resolveIter] at h
    subst h
    intro s hs
    cases hs
  | cons v vs ih =>
    intro fs h
    simp only [SnapSQL.resolveIter] at h
    obtain ⟨fa, fb, hx, hy, hfs⟩ := fragAppend_ok_inv h
    subst hfs
    exact cleanFrags_append (hf v fa hx) (ih fb hy)

/-- Resolution of a placeholder-clean template only ever produces
placeholder-clean fragments: every literal fragment's text comes from a
literal node of the template. -/
theorem resolve_clean (n : SnapSQL.DirectiveNode) :
    SnapSQL.cleanNode n → ∀ (env : SnapSQL.Env) (fs : List SnapSQL.ResolvedFragment),
      SnapSQL.resolveNode n env = .ok fs → SnapSQL.cleanFrags fs := by
  induction n with
  | literal t =>
    intro hc env fs h
    simp [SnapSQL.resolveNode] at h
    subst h
    intro s hs
    simp at hs
    subst hs
    exact hc
  | placeholder p =>
    intro _ env fs h
    simp [SnapSQL.resolveNode] at h
    cases hl : SnapSQL.lookupEnv env p with
    | none => simp [hl] at h
    | some v =>
      simp [hl] at h
      subst h
      intro s hs
      simp at hs
  | empty =>
    intro _ env fs h
    simp [SnapSQL.resolveNode] at h
    subst h
    intro s hs
    cases hs
  | seq a b iha ihb =>
    intro hc env fs h
    simp only [SnapSQL.resolveNode] at h
    obtain ⟨fa, fb, hx, hy, hfs⟩ := fragAppend_ok_inv h
    subst hfs
    exact cleanFrags_append (iha hc.1 env fa hx) (ihb hc.2 env fb hy)
  | dIf c t e iht ihe =>
    intro hc env fs h
    simp only [SnapSQL.resolveNode] at h
    cases he : SnapSQL.evalExpr c env with
    | error err => simp [he] at h
    | ok v =>
      cases v with
      | bool bv =>
        cases bv with
        | true =>
          simp [he] at h
          exact iht hc.1 env fs h
        | false =>
          simp [he] at h
          exact ihe hc.2 env fs h
      | int nv => simp [he] at h
      | str sv => simp [he] at h
      | list lv => simp [he] at h
  | dFor v coll body ih =>
    intro hc env fs h
    simp only [SnapSQL.resolveNode] at h
    cases hl : SnapSQL.lookupEnv env coll with
    | none => simp [hl] at h
    | some cv =>
      cases cv with
      | list items =>
        simp [hl] at h
        exact resolveIter_clean _ (fun item fs' h' => ih hc _ fs' h') items fs h
      | int nv => simp [hl] at h
      | str sv => simp [hl] at h
      | bool bv => simp [hl] at h

/-- Assembling a placeholder-clean fragment sequence emits exactly one
`?` token per bound value: the token count of the text equals the length
of the ordered bind list. -/
theorem assemble_count (fs : List SnapSQL.ResolvedFragment) :
    SnapSQL.cleanFrags fs →
      SnapSQL.placeholderCount (SnapSQL.assemble fs).1 =
        (SnapSQL.assemble fs).2.length := by
  induction fs with
  | nil => intro _; rfl
  | cons f rest ih =>
    intro h
    have hrest : SnapSQL.cleanFrags rest := fun s hs => h s (List.mem_cons_of_mem _ hs)
    have ihr := ih hrest
    cases f with
    | literal t =>
      have ht : t.toList.count '?' = 0 := h t (List.mem_cons_self _ _)
      show SnapSQL.placeholderCount (t ++ (SnapSQL.assemble rest).1) =
        (SnapSQL.assemble rest).2.length
      have hsplit : SnapSQL.placeholderCount (t ++ (SnapSQL.assemble rest).1) =
          t.toList.count '?' + SnapSQL.placeholderCount (SnapSQL.assemble rest).1 := by
        simp [SnapSQL.placeholderCount, String.toList, List.count_append]
      rw [hsplit, ht, ihr, Nat.zero_add]
    | bound v =>
      show SnapSQL.placeholderCount ("?" ++ (SnapSQL.assemble rest).1) =
        (v :: (SnapSQL.assemble rest).2).length
      have hsplit : SnapSQL.placeholderCount ("?" ++ (SnapSQL.assemble rest).1) =
          1 + SnapSQL.placeholderCount (SnapSQL.assemble rest).1 := by
        simp [SnapSQL.placeholderCount, String.toList, List.count_append,
          Nat.add_comm]
      rw [hsplit, ihr, List.length_cons, Nat.add_comm]

/-- C1: for every template whose literal SQL contains no placeholder
token and every argument set, the assembler's output satisfies the
pipeline invariant — the number of placeholder tokens in the assembled
SQL text equals the length of the ordered bind-value list. -/
theorem assembler_placeholder_invariant (tpl : SnapSQL.DirectiveNode)
    (env : SnapSQL.Env) (sql : String) (binds : List SnapSQL.Value)
    (hclean : SnapSQL.cleanNode tpl)
    (h : SnapSQL.runTemplate tpl env = .ok (sql, binds)) :
    SnapSQL.placeholderCount sql = binds.length := by
  unfold SnapSQL.runTemplate at h
  cases hr : SnapSQL.resolveNode tpl env with
  | error e =>
    rw [hr] at h
    simp [Except.map] at h
  | ok fs =>
    have hfs : SnapSQL.assemble fs = (sql, binds) := by
      rw [hr] at h
      simpa [Except.map] using h
    have hc := resolve_clean tpl hclean env fs hr
    have hcount := assemble_count fs hc
    rw [hfs] at hcount
    exact hcount

/-- Witness for C1: the spec's optional-predicate scenario template with
`id=1, includeInactive=false` assembles to SQL with one placeholder token
and one bind value. -/
theorem assembler_placeholder_invariant_witness :
    SnapSQL.placeholderCount
        "SELECT * FROM accounts WHERE id = ? AND status != inactive" =
      [SnapSQL.Value.int 1].length :=
  assembler_placeholder_invariant SnapSQL.demoTemplate SnapSQL.demoEnv
    "SELECT * FROM accounts WHERE id = ? AND status != inactive"
    [SnapSQL.Value.int 1] (by decide) rfl

/-- `takeWhile` keeps exactly an initial run that satisfies the predicate
when the element right after the run (if any) fails it. -/
theorem takeWhile_of_run {α : Type} {p : α → Bool} (l1 l2 : List α)
    (h1 : ∀ a ∈ l1, p a = true)
    (h2 : ∀ a, l2.head? = some a → p a = false) :
    (l1 ++ l2).takeWhile p = l1 := by
  induction l1 with
  | nil =>
    cases l2 with
    | nil => rfl
    | cons b t => simp [List.takeWhile_cons, h2 b rfl]
  | cons a t ih =>
    have ha := h1 a (List.mem_cons_self _ _)
    simp [List.takeWhile_cons, ha,
      ih (fun x hx => h1 x (List.mem_cons_of_mem _ hx))]

/-- `dropWhile` drops exactly an initial run that satisfies the predicate
when the element right after the run (if any) fails it. -/
theorem dropWhile_of_run {α : Type} {p : α → Bool} (l1 l2 : List α)
    (h1 : ∀ a ∈ l1, p a = true)
    (h2 : ∀ a, l2.head? = some a → p a = false) :
    (l1 ++ l2).dropWhile p = l2 := by
  induction l1 with
  | nil =>
    cases l2 with
    | nil => rfl
    | cons b t => simp [List.dropWhile_cons, h2 b rfl]
  | cons a t ih =>
    have ha := h1 a (List.mem_cons_self _ _)
    simp [List.dropWhile_cons, ha,
      ih (fun x hx => h1 x (List.mem_cons_of_mem _ hx))]

/-- C8: for every nested-relation result mapping keyed by a parent
identifier column, contiguous raw rows sharing the leading row's key
merge into a single parent record built from that first row, whose
relation field accumulates one sub-record per raw row in row order;
hydration then continues independently with the remaining rows. -/
theorem hydrate_groups_contiguous_run (keyCol : String)
    (pspec sspec : SnapSQL.ResultSpec) (r : SnapSQL.Row)
    (run rest : List SnapSQL.Row)
    (hrun : ∀ r2 ∈ run, SnapSQL.lookupRow r2 keyCol = SnapSQL.lookupRow r keyCol)
    (hrest : ∀ r2, rest.head? = some r2 →
      SnapSQL.lookupRow r2 keyCol ≠ SnapSQL.lookupRow r keyCol) :
    SnapSQL.hydrate keyCol pspec sspec (r :: (run ++ rest)) =
      ⟨SnapSQL.buildRecord pspec r,
        (r :: run).map (SnapSQL.buildRecord sspec)⟩ ::
        SnapSQL.hydrate keyCol pspec sspec rest := by
  have htake : (run ++ rest).takeWhile
      (fun r2 => decide (SnapSQL.lookupRow r2 keyCol = SnapSQL.lookupRow r keyCol)) = run := by
    refine takeWhile_of_run run rest (fun a ha => ?_) (fun a ha => ?_)
    · simp [hrun a ha]
    · simp [hrest a ha]
  have hdrop : (run ++ rest).dropWhile
      (fun r2 => decide (SnapSQL.lookupRow r2 keyCol = SnapSQL.lookupRow r keyCol)) = rest := by
    refine dropWhile_of_run run rest (fun a ha => ?_) (fun a ha => ?_)
    · simp [hrun a ha]
    · simp [hrest a ha]
  rw [SnapSQL.hydrate]
  rw [htake, hdrop]

/-- Witness for C8: two adjacent raw rows sharing parent key 10 with
distinct comment ids hydrate into one parent record with a two-element
relation list, order preserved. -/
theorem hydrate_groups_contiguous_run_witness :
    SnapSQL.hydrate "post_id" SnapSQL.postSpec SnapSQL.commentSubSpec
        [SnapSQL.rawRow1, SnapSQL.rawRow2] =
      [⟨SnapSQL.buildRecord SnapSQL.postSpec SnapSQL.rawRow1,
        [SnapSQL.buildRecord SnapSQL.commentSubSpec SnapSQL.rawRow1,
         SnapSQL.buildRecord SnapSQL.commentSubSpec SnapSQL.rawRow2]⟩] := by
  have h := hydrate_groups_contiguous_run "post_id" SnapSQL.postSpec
    SnapSQL.commentSubSpec SnapSQL.rawRow1 [SnapSQL.rawRow2] []
    (by
      intro r2 hr2
      simp at hr2
      subst hr2
      rfl)
    (by intro r2 hr2; cases hr2)
  simpa [SnapSQL.hydrate] using h
